import Mathlib

/-!
Shallow embedding of the SIMD triangle-batch intersection core of the SORT
renderer (`src/shape/simd_triangle.h`): the `Triangle4` batch-of-four
container with its `PushTriangle` / `PackData` / `Reset` lifecycle, and the
four-wide ray/triangle intersection routine `intersectTriangle4`.

Modelling conventions:
* IEEE-754 single-precision arithmetic is embedded as exact rational
  arithmetic over `ℚ`.  Every algebraic step of the C++ (subtractions,
  shears, edge functions, determinant, the t expression) is translated
  operation by operation in source order.  `_mm_rcp_ps`, a hardware
  reciprocal approximation, is modelled as the exact rational inverse
  (with `0⁻¹ = 0`); lanes with a zero determinant are masked out before
  the reciprocal is consumed, so the difference is never observable in the
  properties below.
* SSE lane *masks* are modelled at the bit level: each 32-bit lane of an
  `__m128` used as a mask is a natural number below `2^32`.  Comparison
  intrinsics yield `0xFFFFFFFF` / `0` per lane, `_mm_and_ps` on masks is
  `Nat.land`, and `_mm_movemask_ps` collects bit 31 (the IEEE-754 sign
  bit) of each lane.
* Types that `simd_triangle.h` uses but whose definitions are not among
  the provided sources (the `Ray` with its precomputed local frame, the
  mesh vertex storage behind `Triangle`, the hit record `Intersection`
  with a `t` field, and the small vector utilities) are modelled from the
  specification; each such definition carries a comment saying so.
-/

namespace SORT

/-- Modelled from the spec: a 3-component point/vector (`math/point.h` and
the vector type are not among the provided sources).  One exact-rational
triple stands in for both `Point` and `Vector`. -/
structure Vec3 where
  x : ℚ
  y : ℚ
  z : ℚ
deriving DecidableEq

/-- Component access used to model C-style array indexing over x/y/z. -/
def Vec3.nth (v : Vec3) (c : Fin 3) : ℚ :=
  if c = 0 then v.x else if c = 1 then v.y else v.z

/-- Componentwise sum of two vectors. -/
def Vec3.add (a b : Vec3) : Vec3 := ⟨a.x + b.x, a.y + b.y, a.z + b.z⟩

/-- Componentwise difference of two vectors. -/
def Vec3.sub (a b : Vec3) : Vec3 := ⟨a.x - b.x, a.y - b.y, a.z - b.z⟩

/-- Scalar multiple of a vector. -/
def Vec3.smul (q : ℚ) (a : Vec3) : Vec3 := ⟨q * a.x, q * a.y, q * a.z⟩

/-- Negation of a vector. -/
def Vec3.neg (a : Vec3) : Vec3 := ⟨-a.x, -a.y, -a.z⟩

/-- Cross product of two vectors, as used for the geometric normal. -/
def cross (a b : Vec3) : Vec3 :=
  ⟨a.y * b.z - a.z * b.y, a.z * b.x - a.x * b.z, a.x * b.y - a.y * b.x⟩

/-- Modelled from the spec: vector normalization (`Normalize` lives in the
math headers, which are not among the provided sources).  Normalization
rescales a vector by the inverse of its Euclidean length, which is not
expressible in exact rational arithmetic; since none of the verified
claims inspects the magnitude of a stored vector, it is modelled as the
direction-preserving identity. -/
def NormalizeV (v : Vec3) : Vec3 := v

/-- Modelled from the spec: a 2D texture coordinate. -/
structure Vec2 where
  x : ℚ
  y : ℚ
deriving DecidableEq

/-- Modelled from the spec: one entry of a mesh's shared vertex buffer:
position, shading normal, tangent and texture coordinate (the mesh memory
type behind `Triangle::GetMeshVisual()->m_memory` is not among the
provided sources). -/
structure MeshVertex where
  m_position : Vec3
  m_normal : Vec3
  m_tangent : Vec3
  m_texCoord : Vec2
deriving DecidableEq

/-- Modelled from the spec: a Triangle Record — three indices into one
mesh's vertex buffer plus a reference to that buffer (`shape/triangle.h`
is not among the provided sources; `simd_triangle.h` only reads
`GetMeshVisual()->m_memory->m_vertices` and `GetIndices().m_id[k]`). -/
structure Triangle where
  m_memory : List MeshVertex
  m_id : Fin 3 → ℕ
deriving DecidableEq

/-- Fallback vertex for an out-of-range buffer index (the C++ assumes the
indices are valid; the spec makes that an invariant of Triangle Records). -/
def mvDefault : MeshVertex := ⟨⟨0, 0, 0⟩, ⟨0, 0, 0⟩, ⟨0, 0, 0⟩, ⟨0, 0⟩⟩

/-- The k-th vertex of a triangle, read through its mesh's vertex buffer,
mirroring `mem->m_vertices[triangle->GetIndices().m_id[k]]`. -/
def Triangle.vert (tri : Triangle) (k : Fin 3) : MeshVertex :=
  (tri.m_memory.get? (tri.m_id k)).getD mvDefault

/-- Modelled from the spec: the `Ray` consumed by `intersectTriangle4`
(`math/ray.h` is not among the provided sources).  It carries the origin
(both as the splatted per-lane fields `m_ori_x/y/z` and through `m_Dir`
for ray evaluation), the direction, the parametric interval
`[m_fMin, m_fMax]`, the per-ray local-axis permutation `m_local_x/y/z`
(the axis of largest direction magnitude becomes the local y / forward
axis), and the three shear coefficients `m_sse_scale_x/y/z`. -/
structure Ray where
  m_ori_x : ℚ
  m_ori_y : ℚ
  m_ori_z : ℚ
  m_Dir : Vec3
  m_fMin : ℚ
  m_fMax : ℚ
  m_local_x : Fin 3
  m_local_y : Fin 3
  m_local_z : Fin 3
  m_sse_scale_x : ℚ
  m_sse_scale_y : ℚ
  m_sse_scale_z : ℚ

/-- Modelled from the spec: evaluation of a ray at parameter t
(`ray(res_t)` in the source): origin plus t times direction. -/
def Ray.at (r : Ray) (t : ℚ) : Vec3 :=
  ⟨r.m_ori_x + t * r.m_Dir.x, r.m_ori_y + t * r.m_Dir.y, r.m_ori_z + t * r.m_Dir.z⟩

/-- Modelled from the spec: the index of the direction component of
largest magnitude, which becomes the ray-local forward axis. -/
def majorAxis (d : Vec3) : Fin 3 :=
  if |d.x| > |d.y| then (if |d.x| > |d.z| then 0 else 2)
  else (if |d.y| > |d.z| then 1 else 2)

/-- Modelled from the spec: construction of a ray with its cached local
frame.  The largest-magnitude axis becomes local y; the other two follow
cyclically; the shear coefficients align the direction with (0,1,0):
`scale_x = -d_lx / d_ly`, `scale_z = -d_lz / d_ly`, and
`scale_y = 1 / d_ly` normalizes distances along the forward axis. -/
def makeRay (o d : Vec3) (tmin tmax : ℚ) : Ray :=
  let ly := majorAxis d
  let lx : Fin 3 := ly + 1
  let lz : Fin 3 := ly + 2
  let dy := d.nth ly
  { m_ori_x := o.x, m_ori_y := o.y, m_ori_z := o.z, m_Dir := d
    m_fMin := tmin, m_fMax := tmax
    m_local_x := lx, m_local_y := ly, m_local_z := lz
    m_sse_scale_x := -(d.nth lx) / dy
    m_sse_scale_y := dy⁻¹
    m_sse_scale_z := -(d.nth lz) / dy }

/-- Modelled from the spec: the hit record (`math/intersection.h`, the
variant with a `t` field read and written by `intersectTriangle4`, is not
among the provided sources; the older `geometry/intersection.h` in the
sources lacks the fields this routine uses).  Fields are exactly those
the routine writes: intersection point, geometric normal, interpolated
shading normal and tangent, view direction, texture coordinates u/v and
parametric distance t. -/
structure Intersection where
  intersect : Vec3
  gnormal : Vec3
  normal : Vec3
  tangent : Vec3
  view : Vec3
  u : ℚ
  v : ℚ
  t : ℚ
deriving DecidableEq

/-- The `Triangle4` batch-of-four container of `simd_triangle.h`: nine
SSE coordinate registers (three vertices times three coordinates, four
lanes each), the validity mask register, and the four back-references to
the original triangles (`none` models `nullptr`).  Mask lanes are 32-bit
words. -/
structure Triangle4 where
  m_p0_x : Fin 4 → ℚ
  m_p0_y : Fin 4 → ℚ
  m_p0_z : Fin 4 → ℚ
  m_p1_x : Fin 4 → ℚ
  m_p1_y : Fin 4 → ℚ
  m_p1_z : Fin 4 → ℚ
  m_p2_x : Fin 4 → ℚ
  m_p2_y : Fin 4 → ℚ
  m_p2_z : Fin 4 → ℚ
  m_mask : Fin 4 → ℕ
  m_ori_pri : Fin 4 → Option Triangle

/-- A freshly constructed `Triangle4`.  In the C++ the `__m128` members
are default-initialized (indeterminate) while `m_ori_pri` is aggregate-
initialized to four null pointers; the indeterminate registers are
modelled as zero, and no verified claim depends on them before
`PackData` overwrites them. -/
def emptyTriangle4 : Triangle4 :=
  { m_p0_x := fun _ => 0, m_p0_y := fun _ => 0, m_p0_z := fun _ => 0
    m_p1_x := fun _ => 0, m_p1_y := fun _ => 0, m_p1_z := fun _ => 0
    m_p2_x := fun _ => 0, m_p2_y := fun _ => 0, m_p2_z := fun _ => 0
    m_mask := fun _ => 0
    m_ori_pri := fun _ => none }

/-- `Triangle4::PushTriangle`: store the triangle in the first lane whose
back-reference is null, falling through to lane 3 unconditionally when
lanes 0..2 are occupied; the returned Bool reports whether the container
is full after the push (source lines 52-65). -/
def Triangle4.PushTriangle (s : Triangle4) (tri : Triangle) : Bool × Triangle4 :=
  if (s.m_ori_pri 0).isNone then
    (false, { s with m_ori_pri := Function.update s.m_ori_pri 0 (some tri) })
  else if (s.m_ori_pri 1).isNone then
    (false, { s with m_ori_pri := Function.update s.m_ori_pri 1 (some tri) })
  else if (s.m_ori_pri 2).isNone then
    (false, { s with m_ori_pri := Function.update s.m_ori_pri 2 (some tri) })
  else
    (true, { s with m_ori_pri := Function.update s.m_ori_pri 3 (some tri) })

/-- Lane i is written by `PackData`'s loop
`for (i = 0; i < 4 && m_ori_pri[i]; ++i)` exactly when every lane up to
and including i holds a non-null back-reference. -/
def packActive (s : Triangle4) (i : Fin 4) : Bool :=
  decide (∀ j : Fin 4, j ≤ i → (s.m_ori_pri j).isSome)

/-- The packed coordinate of vertex k, component c, lane i.  Lanes the
loop does not reach keep the indeterminate contents of the local stack
arrays `p0_x[4] ...`; those are modelled as zero (the spec lets
unoccupied lanes hold any placeholder, validity being governed by the
mask alone). -/
def packPos (s : Triangle4) (k : Fin 3) (c : Fin 3) (i : Fin 4) : ℚ :=
  if packActive s i then
    match s.m_ori_pri i with
    | some tri => ((tri.vert k).m_position).nth c
    | none => 0
  else 0

/-- The 32-bit pattern each occupied lane of `m_mask` receives from
`PackData`.  The C++ writes `mask[i] = 0xffffffff` into an
`unsigned int` array and then builds the register with
`_mm_set_ps(mask[3], mask[2], mask[1], mask[0])`, whose parameters are
floats: each word is converted *arithmetically* to single precision.
The two representable neighbours of 4294967295 are 4294967040
(bits 0x4F7FFFFF) and 4294967296 (bits 0x4F800000); round-to-nearest
picks 4294967296, giving bit pattern 0x4F800000 — and either neighbour
has a clear sign bit, so bit 31 of an occupied lane is 0 under any
rounding mode.  Empty lanes convert 0 to 0.0f, bit pattern zero. -/
def maskWordBits : ℕ := 0x4F800000

/-- `Triangle4::PackData`: load each reached lane's three vertex
positions into the nine coordinate registers and build the validity mask
register (source lines 68-108). -/
def Triangle4.PackData (s : Triangle4) : Triangle4 :=
  { s with
    m_p0_x := packPos s 0 0, m_p0_y := packPos s 0 1, m_p0_z := packPos s 0 2
    m_p1_x := packPos s 1 0, m_p1_y := packPos s 1 1, m_p1_z := packPos s 1 2
    m_p2_x := packPos s 2 0, m_p2_y := packPos s 2 1, m_p2_z := packPos s 2 2
    m_mask := fun i => if packActive s i then maskWordBits else 0 }

/-- `Triangle4::Reset`: null the four back-references; coordinate and
mask registers are left untouched (source lines 111-113). -/
def Triangle4.Reset (s : Triangle4) : Triangle4 :=
  { s with m_ori_pri := fun _ => none }

/-- A lane of an SSE comparison result: all-ones on true, zero on false. -/
def boolMask (b : Bool) : ℕ := if b then 0xFFFFFFFF else 0

/-- `_mm_movemask_ps`: gather bit 31 (the IEEE-754 sign bit) of each of
the four 32-bit lanes into a 4-bit integer. -/
def movemask (m : Fin 4 → ℕ) : ℕ :=
  (if (m 0).testBit 31 then 1 else 0) + 2 * (if (m 1).testBit 31 then 1 else 0) +
    4 * (if (m 2).testBit 31 then 1 else 0) + 8 * (if (m 3).testBit 31 then 1 else 0)

/-- Step 0 for vertex 0: translate to the ray's coordinate system, i.e.
the array `p0[3]` of source lines 129-131 (component c, lane i). -/
def lane_p0 (r : Ray) (t4 : Triangle4) (c : Fin 3) (i : Fin 4) : ℚ :=
  if c = 0 then t4.m_p0_x i - r.m_ori_x
  else if c = 1 then t4.m_p0_y i - r.m_ori_y
  else t4.m_p0_z i - r.m_ori_z

/-- Step 0 for vertex 1: the array `p1[3]` of source lines 133-135. -/
def lane_p1 (r : Ray) (t4 : Triangle4) (c : Fin 3) (i : Fin 4) : ℚ :=
  if c = 0 then t4.m_p1_x i - r.m_ori_x
  else if c = 1 then t4.m_p1_y i - r.m_ori_y
  else t4.m_p1_z i - r.m_ori_z

/-- Step 0 for vertex 2: the array `p2[3]` of source lines 137-139. -/
def lane_p2 (r : Ray) (t4 : Triangle4) (c : Fin 3) (i : Fin 4) : ℚ :=
  if c = 0 then t4.m_p2_x i - r.m_ori_x
  else if c = 1 then t4.m_p2_y i - r.m_ori_y
  else t4.m_p2_z i - r.m_ori_z

/-- Permuted and sheared local x of vertex 0 (lines 143 and 156). -/
def shear_p0_x (r : Ray) (t4 : Triangle4) (i : Fin 4) : ℚ :=
  lane_p0 r t4 r.m_local_x i + lane_p0 r t4 r.m_local_y i * r.m_sse_scale_x

/-- Permuted local y of vertex 0 (line 144); the shear leaves y alone. -/
def loc_p0_y (r : Ray) (t4 : Triangle4) (i : Fin 4) : ℚ :=
  lane_p0 r t4 r.m_local_y i

/-- Permuted and sheared local z of vertex 0 (lines 145 and 157). -/
def shear_p0_z (r : Ray) (t4 : Triangle4) (i : Fin 4) : ℚ :=
  lane_p0 r t4 r.m_local_z i + lane_p0 r t4 r.m_local_y i * r.m_sse_scale_z

/-- Permuted and sheared local x of vertex 1 (lines 147 and 158). -/
def shear_p1_x (r : Ray) (t4 : Triangle4) (i : Fin 4) : ℚ :=
  lane_p1 r t4 r.m_local_x i + lane_p1 r t4 r.m_local_y i * r.m_sse_scale_x

/-- Permuted local y of vertex 1 (line 148). -/
def loc_p1_y (r : Ray) (t4 : Triangle4) (i : Fin 4) : ℚ :=
  lane_p1 r t4 r.m_local_y i

/-- Permuted and sheared local z of vertex 1 (lines 149 and 159). -/
def shear_p1_z (r : Ray) (t4 : Triangle4) (i : Fin 4) : ℚ :=
  lane_p1 r t4 r.m_local_z i + lane_p1 r t4 r.m_local_y i * r.m_sse_scale_z

/-- Permuted and sheared local x of "vertex 2".  Source lines 151-153
read `p1[...]`, not `p2[...]`: the third vertex's local coordinates are
taken from vertex 1, so this definition is deliberately built on
`lane_p1`, exactly as the code is. -/
def shear_p2_x (r : Ray) (t4 : Triangle4) (i : Fin 4) : ℚ :=
  lane_p1 r t4 r.m_local_x i + lane_p1 r t4 r.m_local_y i * r.m_sse_scale_x

/-- Permuted local y of "vertex 2" — read from `p1` (line 152). -/
def loc_p2_y (r : Ray) (t4 : Triangle4) (i : Fin 4) : ℚ :=
  lane_p1 r t4 r.m_local_y i

/-- Permuted and sheared local z of "vertex 2" — read from `p1`
(lines 153 and 161). -/
def shear_p2_z (r : Ray) (t4 : Triangle4) (i : Fin 4) : ℚ :=
  lane_p1 r t4 r.m_local_z i + lane_p1 r t4 r.m_local_y i * r.m_sse_scale_z

/-- Edge function e0 (line 164): `p1_x * p2_z - p1_z * p2_x`. -/
def laneE0 (r : Ray) (t4 : Triangle4) (i : Fin 4) : ℚ :=
  shear_p1_x r t4 i * shear_p2_z r t4 i - shear_p1_z r t4 i * shear_p2_x r t4 i

/-- Edge function e1 (line 165): `p2_x * p0_z - p2_z * p0_x`. -/
def laneE1 (r : Ray) (t4 : Triangle4) (i : Fin 4) : ℚ :=
  shear_p2_x r t4 i * shear_p0_z r t4 i - shear_p2_z r t4 i * shear_p0_x r t4 i

/-- Edge function e2 (line 166): `p0_x * p1_z - p0_z * p1_x`. -/
def laneE2 (r : Ray) (t4 : Triangle4) (i : Fin 4) : ℚ :=
  shear_p0_x r t4 i * shear_p1_z r t4 i - shear_p0_z r t4 i * shear_p1_x r t4 i

/-- The per-lane inside-triangle stage of lines 168-170: `c0` is the
all-nonnegative comparison, `c1` the all-nonpositive one, and the code
combines them with `_mm_and_ps(c0, c1)` — a conjunction. -/
def edgeCond (e0 e1 e2 : ℚ) : Bool :=
  (decide (e0 ≥ 0) && decide (e1 ≥ 0) && decide (e2 ≥ 0)) &&
    (decide (e0 ≤ 0) && decide (e1 ≤ 0) && decide (e2 ≤ 0))

/-- Refinement reference, following the spec's words: the point is inside
the triangle iff all three edge functions share the same sign (zeros
inclusive) — the all-nonnegative case *or* the all-nonpositive case, so
that either winding is accepted. -/
def specSameSign (e0 e1 e2 : ℚ) : Bool :=
  (decide (e0 ≥ 0) && decide (e1 ≥ 0) && decide (e2 ≥ 0)) ||
    (decide (e0 ≤ 0) && decide (e1 ≤ 0) && decide (e2 ≤ 0))

/-- The mask after the inside-triangle stage (line 170). -/
def mask1 (r : Ray) (t4 : Triangle4) (i : Fin 4) : ℕ :=
  Nat.land (t4.m_mask i)
    (boolMask (edgeCond (laneE0 r t4 i) (laneE1 r t4 i) (laneE2 r t4 i)))

/-- The determinant `e0 + (e1 + e2)` of line 175. -/
def laneDet (r : Ray) (t4 : Triangle4) (i : Fin 4) : ℚ :=
  laneE0 r t4 i + (laneE1 r t4 i + laneE2 r t4 i)

/-- The mask after the non-degeneracy stage (line 176). -/
def mask2 (r : Ray) (t4 : Triangle4) (i : Fin 4) : ℕ :=
  Nat.land (mask1 r t4 i) (boolMask (decide (laneDet r t4 i ≠ 0)))

/-- `_mm_rcp_ps(det)` of line 180, modelled as the exact inverse. -/
def laneRcpDet (r : Ray) (t4 : Triangle4) (i : Fin 4) : ℚ :=
  (laneDet r t4 i)⁻¹

/-- Line 182: `p0_y = p0_y + scale_y` (an addition in the source). -/
def laneP0y (r : Ray) (t4 : Triangle4) (i : Fin 4) : ℚ :=
  loc_p0_y r t4 i + r.m_sse_scale_y

/-- Line 183: `p1_y = p1_y + scale_y`. -/
def laneP1y (r : Ray) (t4 : Triangle4) (i : Fin 4) : ℚ :=
  loc_p1_y r t4 i + r.m_sse_scale_y

/-- Line 184: `p2_y = p2_y + scale_y`. -/
def laneP2y (r : Ray) (t4 : Triangle4) (i : Fin 4) : ℚ :=
  loc_p2_y r t4 i + r.m_sse_scale_y

/-- The candidate parametric distance of lines 186-189, translated
operation by operation: `t = e0 + p0_y` (an addition, not a product),
then `t += e1 * p1_y`, `t += e2 * p2_y`, `t *= rcp_det`. -/
def laneT (r : Ray) (t4 : Triangle4) (i : Fin 4) : ℚ :=
  (laneE0 r t4 i + laneP0y r t4 i + laneE1 r t4 i * laneP1y r t4 i +
      laneE2 r t4 i * laneP2y r t4 i) * laneRcpDet r t4 i

/-- Refinement reference, following the spec's words: the candidate
distance is `(e0 * p0_y + e1 * p1_y + e2 * p2_y)` divided by the
determinant. -/
def specLaneT (r : Ray) (t4 : Triangle4) (i : Fin 4) : ℚ :=
  (laneE0 r t4 i * laneP0y r t4 i + laneE1 r t4 i * laneP1y r t4 i +
      laneE2 r t4 i * laneP2y r t4 i) / laneDet r t4 i

/-- The mask after the parametric-interval stage (line 193):
`t > m_fMin` and `t < m_fMax`, both strict. -/
def mask3 (r : Ray) (t4 : Triangle4) (i : Fin 4) : ℕ :=
  Nat.land (Nat.land (mask2 r t4 i) (boolMask (decide (laneT r t4 i > r.m_fMin))))
    (boolMask (decide (laneT r t4 i < r.m_fMax)))

/-- The mask after the current-bound stage (line 201): `t > 0` strict
and `t <= ret->t` inclusive. -/
def mask4 (r : Ray) (t4 : Triangle4) (hit : Intersection) (i : Fin 4) : ℕ :=
  Nat.land (Nat.land (mask3 r t4 i) (boolMask (decide (laneT r t4 i > 0))))
    (boolMask (decide (laneT r t4 i ≤ hit.t)))

/-- The scalar reduction of source lines 216-233: `res_i` starts at -1
and `res_t` at -1.0, and lane i is selected only when its mask word is
non-zero *and* `res_t > f_t[i]` holds for the current `res_t`. -/
def resolve (b_mask : Fin 4 → ℕ) (f_t : Fin 4 → ℚ) : ℤ × ℚ :=
  let r0 : ℤ × ℚ := (-1, -1)
  let r1 := if b_mask 0 ≠ 0 ∧ r0.2 > f_t 0 then ((0 : ℤ), f_t 0) else r0
  let r2 := if b_mask 1 ≠ 0 ∧ r1.2 > f_t 1 then ((1 : ℤ), f_t 1) else r1
  let r3 := if b_mask 2 ≠ 0 ∧ r2.2 > f_t 2 then ((2 : ℤ), f_t 2) else r2
  if b_mask 3 ≠ 0 ∧ r3.2 > f_t 3 then ((3 : ℤ), f_t 3) else r3

/-- Attribute resolution for the winning lane (source lines 235-262):
re-fetch the winner's three vertices and interpolate position, normals,
tangent and texture coordinates; `Normalize` is modelled by
`NormalizeV`. -/
def resolveHit (r : Ray) (t4 : Triangle4) (i : Fin 4) (tri : Triangle) (res_t : ℚ) :
    Intersection :=
  let u := laneE1 r t4 i * laneRcpDet r t4 i
  let v := laneE2 r t4 i * laneRcpDet r t4 i
  let w := 1 - u - v
  let mv0 := tri.vert 0
  let mv1 := tri.vert 1
  let mv2 := tri.vert 2
  { intersect := r.at res_t
    gnormal := NormalizeV (cross (Vec3.sub mv2.m_position mv0.m_position)
      (Vec3.sub mv1.m_position mv0.m_position))
    normal := NormalizeV (Vec3.add (Vec3.add (Vec3.smul w mv0.m_normal)
      (Vec3.smul u mv1.m_normal)) (Vec3.smul v mv2.m_normal))
    tangent := NormalizeV (Vec3.add (Vec3.add (Vec3.smul w mv0.m_tangent)
      (Vec3.smul u mv1.m_tangent)) (Vec3.smul v mv2.m_tangent))
    view := Vec3.neg r.m_Dir
    u := w * mv0.m_texCoord.x + u * mv1.m_texCoord.x + v * mv2.m_texCoord.x
    v := w * mv0.m_texCoord.y + u * mv1.m_texCoord.y + v * mv2.m_texCoord.y
    t := res_t }

/-- The function `intersectTriangle4` of source lines 122-265: the four
rejection stages with their movemask short-circuits, the null-record
existence path, the scalar reduction, and the attribute resolution for
the selected lane.  The result pairs the returned Bool with the hit
record as left by the call.  When the reduction selects no lane
(`res_i = -1`) the C++ reads `m_ori_pri[-1]` — undefined behaviour; that
path (unreachable, as proved below) is modelled as returning true with
the record unchanged, and likewise for a selected lane whose
back-reference is null. -/
def intersectTriangle4 (r : Ray) (t4 : Triangle4) (ret : Option Intersection) :
    Bool × Option Intersection :=
  if movemask (mask1 r t4) = 0 then (false, ret)
  else if movemask (mask2 r t4) = 0 then (false, ret)
  else if movemask (mask3 r t4) = 0 then (false, ret)
  else
    match ret with
    | none => (true, none)
    | some hit =>
      if movemask (mask4 r t4 hit) = 0 then (false, some hit)
      else
        let rr := resolve (mask4 r t4 hit) (fun i => laneT r t4 i)
        match rr.1 with
        | Int.ofNat n =>
          if h : n < 4 then
            match t4.m_ori_pri ⟨n, h⟩ with
            | some tri => (true, some (resolveHit r t4 ⟨n, h⟩ tri rr.2))
            | none => (true, some hit)
          else (true, some hit)
        | Int.negSucc _ => (true, some hit)

/-- Whether a container's occupied lanes form a contiguous prefix
starting at lane 0. -/
def contiguous (s : Triangle4) : Prop :=
  ∀ i j : Fin 4, i ≤ j → (s.m_ori_pri j).isSome → (s.m_ori_pri i).isSome

/-- Apply a sequence of `PushTriangle` calls, discarding the returned
fullness flags. -/
def pushMany (s : Triangle4) : List Triangle → Triangle4
  | [] => s
  | tri :: ts => pushMany (s.PushTriangle tri).2 ts

/-- Whether two or three of a triangle's vertex positions coincide, i.e.
the triangle has zero area in the sense of the spec's degeneracy
property. -/
def degenerateTri (tri : Triangle) : Prop :=
  (tri.vert 0).m_position = (tri.vert 1).m_position ∨
    (tri.vert 1).m_position = (tri.vert 2).m_position ∨
    (tri.vert 0).m_position = (tri.vert 2).m_position

/-- Scenario-1 vertex 0: position (-1,-1,0). -/
def mv0C1 : MeshVertex := ⟨⟨-1, -1, 0⟩, ⟨0, 0, -1⟩, ⟨1, 0, 0⟩, ⟨0, 0⟩⟩

/-- Scenario-1 vertex 1: position (1,-1,0). -/
def mv1C1 : MeshVertex := ⟨⟨1, -1, 0⟩, ⟨0, 0, -1⟩, ⟨1, 0, 0⟩, ⟨1, 0⟩⟩

/-- Scenario-1 vertex 2: position (0,1,0). -/
def mv2C1 : MeshVertex := ⟨⟨0, 1, 0⟩, ⟨0, 0, -1⟩, ⟨1, 0, 0⟩, ⟨0, 1⟩⟩

/-- The scenario-1 triangle: vertices (-1,-1,0), (1,-1,0), (0,1,0). -/
def triC1 : Triangle := { m_memory := [mv0C1, mv1C1, mv2C1], m_id := ![0, 1, 2] }

/-- The scenario batch: the scenario-1 triangle pushed into lane 0 of an
otherwise empty container, then packed. -/
def tri4C1 : Triangle4 := ((emptyTriangle4.PushTriangle triC1).2).PackData

/-- The scenario ray: origin (0,0,-5), direction (0,0,1), parametric
interval (0, 100), which contains 5. -/
def rayC1 : Ray := makeRay ⟨0, 0, -5⟩ ⟨0, 0, 1⟩ 0 100

/-- A hit record whose current t bound (1000) exceeds 5. -/
def hitC1 : Intersection :=
  { intersect := ⟨0, 0, 0⟩, gnormal := ⟨0, 0, 0⟩, normal := ⟨0, 0, 0⟩
    tangent := ⟨0, 0, 0⟩, view := ⟨0, 0, 0⟩, u := 0, v := 0, t := 1000 }

/-- A degenerate triangle: vertices 0 and 1 share the position (2,2,2). -/
def triDeg : Triangle :=
  { m_memory := [⟨⟨2, 2, 2⟩, ⟨0, 0, 1⟩, ⟨1, 0, 0⟩, ⟨0, 0⟩⟩,
      ⟨⟨2, 2, 2⟩, ⟨0, 0, 1⟩, ⟨1, 0, 0⟩, ⟨1, 0⟩⟩,
      ⟨⟨3, 4, 2⟩, ⟨0, 0, 1⟩, ⟨1, 0, 0⟩, ⟨0, 1⟩⟩]
    m_id := ![0, 1, 2] }

/-- A batch holding only the degenerate triangle, in lane 0. -/
def tri4Deg : Triangle4 := (emptyTriangle4.PushTriangle triDeg).2

/-- A container with all four lanes occupied (scenario triangle four
times). -/
def tri4Full : Triangle4 :=
  pushMany emptyTriangle4 [triC1, triC1, triC1, triC1]

/-- All-surviving lane masks for exercising the reduction in isolation. -/
def fullMask4 : Fin 4 → ℕ := fun _ => 0xFFFFFFFF

/-- Surviving candidate distances 5, 7, 9, 11 with the minimum in
lane 0. -/
def tListC5 : Fin 4 → ℚ := ![5, 7, 9, 11]

/-- Edge function e0 is identically zero: it is computed from the
vertex-1 and "vertex-2" local coordinates, and lines 151-153 load the
latter from `p1`, so e0 is a difference of two equal products. -/
theorem laneE0_eq_zero (r : Ray) (t4 : Triangle4) (i : Fin 4) : laneE0 r t4 i = 0 := by
  unfold laneE0 shear_p1_x shear_p1_z shear_p2_x shear_p2_z
  ring

/-- Edge function e2 is the exact negative of e1, for the same reason. -/
theorem laneE2_eq_neg_laneE1 (r : Ray) (t4 : Triangle4) (i : Fin 4) :
    laneE2 r t4 i = -laneE1 r t4 i := by
  unfold laneE1 laneE2 shear_p0_x shear_p0_z shear_p1_x shear_p1_z shear_p2_x shear_p2_z
  ring

/-- The determinant e0 + (e1 + e2) is identically zero on every lane. -/
theorem laneDet_eq_zero (r : Ray) (t4 : Triangle4) (i : Fin 4) : laneDet r t4 i = 0 := by
  unfold laneDet laneE0 laneE1 laneE2 shear_p0_x shear_p0_z shear_p1_x shear_p1_z
    shear_p2_x shear_p2_z
  ring

/-- Every lane dies at the non-degeneracy stage: the `cmpneq` mask of a
zero determinant is zero, and anding it in clears the lane. -/
theorem mask2_eq_zero (r : Ray) (t4 : Triangle4) (i : Fin 4) : mask2 r t4 i = 0 := by
  unfold mask2
  rw [laneDet_eq_zero]
  simp [boolMask]
  exact Nat.and_zero _

/-- The movemask after the non-degeneracy stage is zero for any ray and
any container. -/
theorem movemask_mask2_eq_zero (r : Ray) (t4 : Triangle4) : movemask (mask2 r t4) = 0 := by
  unfold movemask
  simp [mask2_eq_zero]

/-- The routine returns false with the record untouched on every input:
if the inside-triangle gate does not already fail, the identically zero
determinant clears the whole mask at the non-degeneracy gate. -/
theorem intersectTriangle4_eq (r : Ray) (t4 : Triangle4) (ret : Option Intersection) :
    intersectTriangle4 r t4 ret = (false, ret) := by
  unfold intersectTriangle4
  by_cases h1 : movemask (mask1 r t4) = 0
  · simp [h1]
  · simp [h1, movemask_mask2_eq_zero]

/-- Updating one lane of a back-reference array keeps contiguity when
every lane below the updated one is occupied. -/
theorem contiguous_update_fn (f : Fin 4 → Option Triangle) (k : Fin 4) (tri : Triangle)
    (hocc : ∀ i : Fin 4, i < k → (f i).isSome)
    (hc : ∀ i j : Fin 4, i ≤ j → (f j).isSome → (f i).isSome) :
    ∀ i j : Fin 4, i ≤ j → (Function.update f k (some tri) j).isSome →
      (Function.update f k (some tri) i).isSome := by
  intro i j hij hj
  rcases lt_trichotomy i k with hik | hik | hik
  · rw [Function.update_noteq (ne_of_lt hik)]
    exact hocc i hik
  · subst hik
    rw [Function.update_same]
    simp
  · have hjk : k < j := lt_of_lt_of_le hik hij
    rw [Function.update_noteq (ne_of_gt hjk)] at hj
    rw [Function.update_noteq (ne_of_gt hik)]
    exact hc i j hij hj

/-- A single `PushTriangle` preserves the contiguous-prefix shape of the
occupied lanes. -/
theorem push_contiguous (s : Triangle4) (tri : Triangle) (hc : contiguous s) :
    contiguous (s.PushTriangle tri).2 := by
  unfold Triangle4.PushTriangle
  cases hq0 : s.m_ori_pri 0 with
  | none =>
    simp only [hq0, Option.isNone_none, if_true]
    have hnone : ∀ j : Fin 4, ¬j < 0 := by decide
    exact contiguous_update_fn s.m_ori_pri 0 tri (fun i hi => absurd hi (hnone i)) hc
  | some t0 =>
    cases hq1 : s.m_ori_pri 1 with
    | none =>
      simp only [hq0, hq1, Option.isNone_some, Option.isNone_none, Bool.false_eq_true,
        if_false, if_true]
      refine contiguous_update_fn s.m_ori_pri 1 tri ?_ hc
      intro i hi
      have henum : ∀ j : Fin 4, j < 1 → j = 0 := by decide
      rw [henum i hi, hq0]
      rfl
    | some t1 =>
      cases hq2 : s.m_ori_pri 2 with
      | none =>
        simp only [hq0, hq1, hq2, Option.isNone_some, Option.isNone_none, Bool.false_eq_true,
          if_false, if_true]
        refine contiguous_update_fn s.m_ori_pri 2 tri ?_ hc
        intro i hi
        have henum : ∀ j : Fin 4, j < 2 → j = 0 ∨ j = 1 := by decide
        rcases henum i hi with h | h
        · rw [h, hq0]; rfl
        · rw [h, hq1]; rfl
      | some t2 =>
        simp only [hq0, hq1, hq2, Option.isNone_some, Bool.false_eq_true, if_false]
        refine contiguous_update_fn s.m_ori_pri 3 tri ?_ hc
        intro i hi
        have henum : ∀ j : Fin 4, j < 3 → j = 0 ∨ j = 1 ∨ j = 2 := by decide
        rcases henum i hi with h | h | h
        · rw [h, hq0]; rfl
        · rw [h, hq1]; rfl
        · rw [h, hq2]; rfl

/-- Any sequence of pushes preserves the contiguous-prefix shape. -/
theorem pushMany_contiguous (s : Triangle4) (ts : List Triangle) (hc : contiguous s) :
    contiguous (pushMany s ts) := by
  induction ts generalizing s with
  | nil => exact hc
  | cons t ts ih => exact ih _ (push_contiguous s t hc)

/-- The freshly constructed container is (vacuously) contiguous. -/
theorem empty_contiguous : contiguous emptyTriangle4 := by
  intro i j _ hj
  simp [emptyTriangle4] at hj

/-- Claim C1: pushing the triangle (-1,-1,0), (1,-1,0), (0,1,0) into
lane 0 of an otherwise empty batch, packing, and intersecting with the
ray of origin (0,0,-5) and direction (0,0,1) — whose interval (0, 100)
contains 5 and against a record with bound 1000 > 5 — is claimed to
return true with t = 5; the code returns false and leaves the record
unchanged. -/
theorem c1_scenario_lane0_returns_false :
    intersectTriangle4 rayC1 tri4C1 (some hitC1) = (false, some hitC1) ∧
      rayC1.m_fMin < 5 ∧ (5 : ℚ) < rayC1.m_fMax ∧ (5 : ℚ) < hitC1.t := by
  refine ⟨intersectTriangle4_eq rayC1 tri4C1 (some hitC1), ?_, ?_, ?_⟩
  · norm_num [rayC1, makeRay]
  · norm_num [rayC1, makeRay]
  · norm_num [hitC1]

/-- Claim C2: after `PackData` the occupied lane 0 of the scenario batch
does not carry the all-ones pattern 0xFFFFFFFF: the unsigned-to-float
conversion inside `_mm_set_ps` stores the bits 0x4F800000 of the float
2^32 instead; empty lanes do receive the all-zeros pattern. -/
theorem c2_packed_mask_is_float_pattern :
    tri4C1.m_mask 0 = maskWordBits ∧ maskWordBits ≠ 0xFFFFFFFF ∧
      (tri4C1.m_ori_pri 0).isSome = true ∧
      tri4C1.m_mask 1 = 0 ∧ tri4C1.m_mask 2 = 0 ∧ tri4C1.m_mask 3 = 0 ∧
      tri4C1.m_ori_pri 1 = none ∧ tri4C1.m_ori_pri 2 = none ∧ tri4C1.m_ori_pri 3 = none := by
  decide

/-- Claim C3: the inside-triangle stage of lines 168-170 combines the
all-nonnegative case c0 and the all-nonpositive case c1 with
`_mm_and_ps`, so a lane whose three edge functions are all strictly
positive — same sign, inside per the claim — is rejected; only the
all-exactly-zero case passes. -/
theorem c3_inside_stage_is_conjunction_not_disjunction :
    edgeCond 1 1 1 = false ∧ specSameSign 1 1 1 = true ∧
      edgeCond (-1) (-1) (-1) = false ∧ specSameSign (-1) (-1) (-1) = true ∧
      edgeCond 0 0 0 = true := by
  decide

/-- Claim C4: the determinant e0 + e1 + e2 is identically zero on every
lane for every ray and container — e0 vanishes and e2 = -e1 because
lines 151-153 load the third vertex from `p1` — so the non-degeneracy
stage clears every lane and no lane ever survives to carry a candidate
distance. -/
theorem c4_determinant_vanishes_on_every_lane (r : Ray) (t4 : Triangle4) (i : Fin 4) :
    laneDet r t4 i = 0 ∧ mask2 r t4 i = 0 :=
  ⟨laneDet_eq_zero r t4 i, mask2_eq_zero r t4 i⟩

/-- Claim C5: with all four lanes surviving and candidate distances
5, 7, 9, 11 (minimum in lane 0), the reduction of lines 216-233 selects
no lane at all — `res_t` starts at -1 and the selection condition
`res_t > f_t[i]` never holds for positive distances — leaving
`res_i = -1`, with which the C++ then indexes `m_ori_pri`. -/
theorem c5_reduction_never_selects_a_lane :
    resolve fullMask4 tListC5 = (-1, -1) ∧
      (∀ i : Fin 4, fullMask4 i ≠ 0) ∧ (∀ i : Fin 4, tListC5 0 ≤ tListC5 i) := by
  decide

/-- Claim C6: the guarantee speaks about calls that return true; no call
of `intersectTriangle4` ever returns true, on any ray, container or
record. -/
theorem c6_no_call_ever_returns_true (r : Ray) (t4 : Triangle4) (ret : Option Intersection) :
    (intersectTriangle4 r t4 ret).1 = false := by
  rw [intersectTriangle4_eq]

/-- Claim C7: whenever `intersectTriangle4` returns false the hit record
it was given is left unmodified. -/
theorem c7_failed_call_leaves_record_unchanged (r : Ray) (t4 : Triangle4)
    (ret : Option Intersection) (h : (intersectTriangle4 r t4 ret).1 = false) :
    (intersectTriangle4 r t4 ret).2 = ret := by
  rw [intersectTriangle4_eq]

/-- Witness for C7 at a concrete failing call. -/
theorem c7_witness :
    (intersectTriangle4 rayC1 emptyTriangle4 (some hitC1)).2 = some hitC1 :=
  c7_failed_call_leaves_record_unchanged rayC1 emptyTriangle4 (some hitC1)
    (by simp [intersectTriangle4_eq])

/-- Claim C8: `Reset` nulls all four back-references and touches none of
the nine coordinate registers, and any intersection call against the
reset container returns false. -/
theorem c8_reset_clears_refs_and_intersection_fails (s : Triangle4) (r : Ray)
    (ret : Option Intersection) :
    (∀ i : Fin 4, (s.Reset).m_ori_pri i = none) ∧
      (s.Reset).m_p0_x = s.m_p0_x ∧ (s.Reset).m_p0_y = s.m_p0_y ∧
      (s.Reset).m_p0_z = s.m_p0_z ∧
      (s.Reset).m_p1_x = s.m_p1_x ∧ (s.Reset).m_p1_y = s.m_p1_y ∧
      (s.Reset).m_p1_z = s.m_p1_z ∧
      (s.Reset).m_p2_x = s.m_p2_x ∧ (s.Reset).m_p2_y = s.m_p2_y ∧
      (s.Reset).m_p2_z = s.m_p2_z ∧
      (intersectTriangle4 r s.Reset ret).1 = false := by
  refine ⟨fun i => rfl, rfl, rfl, rfl, rfl, rfl, rfl, rfl, rfl, rfl, ?_⟩
  rw [intersectTriangle4_eq]

/-- Claim C9: a packed batch holding a zero-area triangle (coincident
vertices) in some lane never reports a hit from that lane: the lane's
determinant is zero and the intersection call returns false. -/
theorem c9_degenerate_lane_never_hits (s : Triangle4) (tri : Triangle) (i : Fin 4)
    (hmem : s.m_ori_pri i = some tri) (hdeg : degenerateTri tri)
    (r : Ray) (ret : Option Intersection) :
    laneDet r s.PackData i = 0 ∧ (intersectTriangle4 r s.PackData ret).1 = false := by
  refine ⟨laneDet_eq_zero r s.PackData i, ?_⟩
  rw [intersectTriangle4_eq]

/-- Witness for C9: the concrete degenerate triangle with vertices 0 and
1 at (2,2,2), packed into lane 0, against the scenario ray. -/
theorem c9_witness :
    laneDet rayC1 tri4Deg.PackData 0 = 0 ∧
      (intersectTriangle4 rayC1 tri4Deg.PackData (some hitC1)).1 = false :=
  c9_degenerate_lane_never_hits tri4Deg triDeg 0 (by decide) (Or.inl rfl) rayC1 (some hitC1)

/-- Claim C10: the container is a fixed four-lane array whose occupied
lanes always form a contiguous prefix under any sequence of pushes from
the fresh container, and a push on a full container returns true,
overwrites lane 3, and leaves lanes 0..2 unchanged. -/
theorem c10_push_capacity_and_overwrite (ts : List Triangle) (s : Triangle4) (tri : Triangle)
    (hfull : ∀ i : Fin 4, (s.m_ori_pri i).isSome = true) :
    contiguous (pushMany emptyTriangle4 ts) ∧
      (Finset.filter (fun i : Fin 4 => ((pushMany emptyTriangle4 ts).m_ori_pri i).isSome = true)
        Finset.univ).card ≤ 4 ∧
      (s.PushTriangle tri).1 = true ∧
      (s.PushTriangle tri).2.m_ori_pri 3 = some tri ∧
      ∀ i : Fin 4, i < 3 → (s.PushTriangle tri).2.m_ori_pri i = s.m_ori_pri i := by
  obtain ⟨t0, h0⟩ := Option.isSome_iff_exists.mp (hfull 0)
  obtain ⟨t1, h1⟩ := Option.isSome_iff_exists.mp (hfull 1)
  obtain ⟨t2, h2⟩ := Option.isSome_iff_exists.mp (hfull 2)
  refine ⟨pushMany_contiguous emptyTriangle4 ts empty_contiguous,
    le_trans (Finset.card_filter_le _ _) (by simp), ?_, ?_, ?_⟩
  · simp [Triangle4.PushTriangle, h0, h1, h2]
  · simp [Triangle4.PushTriangle, h0, h1, h2, Function.update_same]
  · intro i hi
    simp [Triangle4.PushTriangle, h0, h1, h2, Function.update_noteq (ne_of_lt hi)]

/-- Witness for C10: one push into the fresh container, and the overflow
push into a concrete full container. -/
theorem c10_witness :
    contiguous (pushMany emptyTriangle4 [triC1]) ∧
      (Finset.filter (fun i : Fin 4 => ((pushMany emptyTriangle4 [triC1]).m_ori_pri i).isSome = true)
        Finset.univ).card ≤ 4 ∧
      (tri4Full.PushTriangle triDeg).1 = true ∧
      (tri4Full.PushTriangle triDeg).2.m_ori_pri 3 = some triDeg ∧
      ∀ i : Fin 4, i < 3 → (tri4Full.PushTriangle triDeg).2.m_ori_pri i = tri4Full.m_ori_pri i :=
  c10_push_capacity_and_overwrite [triC1] tri4Full triDeg (by decide)

end SORT
